import Mathlib

/-!
Shallow embedding of the `iot-kit` sensor drivers (src/sensor/SHT31.py,
src/sensor/SHT31_modified.py, src/sensor/VL6180.py).

Modelling choices:
* The I2C transport is an oracle: a function from the index of the bus
  operation (0, 1, 2, ...) to either a transport error (`TimeoutError` /
  `OSError`, modelled as a `Nat` error code carried by `Except.error`) or
  the data the operation returns.  Each driver-level register operation
  (`write_list`, `read_list`, `read`, `read16`, `write_byte`,
  `write_byte16`) consumes exactly one oracle index.
* Every operation, including `sleep`, is recorded in an event trace
  (most recent event first), so claims about which bus operations are
  performed and in which order are statements about the trace.
* Python `float` arithmetic on the decode formulas is modelled by exact
  rational arithmetic (`ℚ`); `random.uniform a b` is modelled as
  `a + (b - a) * r` for a seed `r` with `0 ≤ r ≤ 1`.
* The fixed `for attempt in range(3)` retry loops are unrolled to three
  explicit attempts, exactly as the source executes them.
-/

namespace IotKit

/-- A bus-level event performed by a driver, as seen by the transport. -/
inductive Ev
  /-- `write_i2c_block_data` of `data` at 8-bit register `reg` (SHT31 `write_list`). -/
  | writeBlock (reg : Nat) (data : List Nat)
  /-- `read_i2c_block_data` of `len` bytes at 8-bit register `reg` (SHT31 `read_list`). -/
  | readBlock (reg : Nat) (len : Nat)
  /-- VL6180X `read`: one byte from 16-bit register `reg`. -/
  | readReg (reg : Nat)
  /-- VL6180X `read16`: a 16-bit big-endian value from register `reg`. -/
  | read16Reg (reg : Nat)
  /-- VL6180X `write_byte`: one byte `val` to 16-bit register `reg`. -/
  | writeReg (reg : Nat) (val : Nat)
  /-- VL6180X `write_byte16`: a 16-bit value `val` to register `reg`. -/
  | write16Reg (reg : Nat) (val : Nat)
  /-- `time.sleep` of `ms` milliseconds. -/
  | sleepMs (ms : Nat)
  deriving DecidableEq

/-- The transport-visible state of a call: how many bus operations have been
issued (`idx`, the next oracle index) and the trace of events so far
(most recent first). -/
structure BusState where
  idx : Nat
  trace : List Ev
  deriving DecidableEq

/-- The state at the start of a driver call: no operations issued yet. -/
def startState : BusState := ⟨0, []⟩

/-- Transport oracle for the VL6180X driver: operation index to transport
error or returned byte / word (ignored for writes). -/
abbrev VLOracle : Type := Nat → Except Nat Nat

/-- Transport oracle for the SHT31 driver: operation index to transport
error or returned byte list (ignored for writes). -/
abbrev SHTOracle : Type := Nat → Except Nat (List Nat)

/-- Record a `sleep` in the trace; sleeping issues no bus operation. -/
def sleepEv (ms : Nat) (s : BusState) : BusState :=
  ⟨s.idx, Ev.sleepMs ms :: s.trace⟩

/-- SHT31 `write_list` (hardware branch): one `write_i2c_block_data` call. -/
def shtWrite (o : SHTOracle) (reg : Nat) (data : List Nat) (s : BusState) :
    Except Nat Unit × BusState :=
  match o s.idx with
  | .ok _ => (.ok (), ⟨s.idx + 1, Ev.writeBlock reg data :: s.trace⟩)
  | .error e => (.error e, ⟨s.idx + 1, Ev.writeBlock reg data :: s.trace⟩)

/-- SHT31 `read_list` (hardware branch): one `read_i2c_block_data` call. -/
def shtRead (o : SHTOracle) (reg len : Nat) (s : BusState) :
    Except Nat (List Nat) × BusState :=
  match o s.idx with
  | .ok d => (.ok d, ⟨s.idx + 1, Ev.readBlock reg len :: s.trace⟩)
  | .error e => (.error e, ⟨s.idx + 1, Ev.readBlock reg len :: s.trace⟩)

/-- Temperature decode from SHT31.py line 80:
`temperature = -45 + (175 * (data[0] * 256 + data[1]) / 65535.0)`. -/
def decodeTemperature (d : List Nat) : ℚ :=
  -45 + 175 * ((d.getD 0 0 : ℚ) * 256 + (d.getD 1 0 : ℚ)) / 65535

/-- Humidity decode from SHT31.py line 81:
`humidity = 100 * (data[3] * 256 + data[4]) / 65535.0`. -/
def decodeHumidity (d : List Nat) : ℚ :=
  100 * ((d.getD 3 0 : ℚ) * 256 + (d.getD 4 0 : ℚ)) / 65535

/-- Temperature decode from SHT31_modified.py line 70 (same formula text). -/
def modDecodeTemperature (d : List Nat) : ℚ :=
  -45 + 175 * ((d.getD 0 0 : ℚ) * 256 + (d.getD 1 0 : ℚ)) / 65535

/-- Humidity decode from SHT31_modified.py line 71 (same formula text). -/
def modDecodeHumidity (d : List Nat) : ℚ :=
  100 * ((d.getD 3 0 : ℚ) * 256 + (d.getD 4 0 : ℚ)) / 65535

/-- One attempt of SHT31.py `get_temperature_humidity` (lines 76-79):
`write_list(0x2C, [0x10])`, settle sleep (0.5 s on the first attempt,
1.0 s on retries), then `read_list(0x00, 6)`. -/
def shtAttempt (o : SHTOracle) (first : Bool) (s : BusState) :
    Except Nat (List Nat) × BusState :=
  match shtWrite o 0x2C [0x10] s with
  | (.error e, s') => (.error e, s')
  | (.ok _, s') => shtRead o 0x00 6 (sleepEv (if first then 500 else 1000) s')

/-- Hardware branch of SHT31.py `get_temperature_humidity` (lines 65-99):
the `for attempt in range(3)` retry loop unrolled.  Before attempts 1 and 2
the code sleeps 0.2 s; after the last failed attempt it re-raises the
current exception. -/
def shtMeasureHW (o : SHTOracle) : Except Nat (ℚ × ℚ) × BusState :=
  match shtAttempt o true startState with
  | (.ok d, s) => (.ok (decodeTemperature d, decodeHumidity d), s)
  | (.error _, s₁) =>
    match shtAttempt o false (sleepEv 200 s₁) with
    | (.ok d, s) => (.ok (decodeTemperature d, decodeHumidity d), s)
    | (.error _, s₂) =>
      match shtAttempt o false (sleepEv 200 s₂) with
      | (.ok d, s) => (.ok (decodeTemperature d, decodeHumidity d), s)
      | (.error e, s₃) => (.error e, s₃)

/-- `random.uniform a b` modelled with an explicit seed `r ∈ [0, 1]`. -/
def uniform (a b r : ℚ) : ℚ := a + (b - a) * r

/-- SHT31.py `get_temperature_humidity` (lines 52-99): in test mode it
returns `20.0 + random.uniform(-5, 15)` and `50.0 + random.uniform(-20, 30)`
without touching the bus; otherwise the retry loop runs. -/
def getTemperatureHumidity (testMode : Bool) (r₁ r₂ : ℚ) (o : SHTOracle) :
    Except Nat (ℚ × ℚ) × BusState :=
  if testMode then
    (.ok (20 + uniform (-5) 15 r₁, 50 + uniform (-20) 30 r₂), startState)
  else shtMeasureHW o

/-- SHT31_modified.py `get_temperature_humidity` (lines 52-77): same test
mode; in hardware mode a single attempt with command `[0x06]`
(`COMMAND_MEAS_HIGHREP`), 0.5 s settle, no retry. -/
def modGetTemperatureHumidity (testMode : Bool) (r₁ r₂ : ℚ) (o : SHTOracle) :
    Except Nat (ℚ × ℚ) × BusState :=
  if testMode then
    (.ok (20 + uniform (-5) 15 r₁, 50 + uniform (-20) 30 r₂), startState)
  else
    match shtWrite o 0x2C [0x06] startState with
    | (.error e, s) => (.error e, s)
    | (.ok _, s) =>
      match shtRead o 0x00 6 (sleepEv 500 s) with
      | (.error e, s') => (.error e, s')
      | (.ok d, s') => (.ok (modDecodeTemperature d, modDecodeHumidity d), s')

/-- Number of trace events satisfying `p`. -/
def countEv (p : Ev → Bool) (t : List Ev) : Nat := (t.filter p).length

/-- The measurement-command write of SHT31.py (`write_list(0x2C, ...)`):
each attempt of the retry loop issues exactly one of these. -/
def isMeasWrite : Ev → Bool
  | .writeBlock 0x2C _ => true
  | _ => false

/-- VL6180X `read` (hardware branch, lines 195-199): one register-level
read of one byte from 16-bit register `reg`. -/
def doRead (o : VLOracle) (reg : Nat) (s : BusState) :
    Except Nat Nat × BusState :=
  match o s.idx with
  | .ok v => (.ok v, ⟨s.idx + 1, Ev.readReg reg :: s.trace⟩)
  | .error e => (.error e, ⟨s.idx + 1, Ev.readReg reg :: s.trace⟩)

/-- VL6180X `read16` (hardware branch, lines 213-219): one register-level
read of a 16-bit value from register `reg`. -/
def doRead16 (o : VLOracle) (reg : Nat) (s : BusState) :
    Except Nat Nat × BusState :=
  match o s.idx with
  | .ok v => (.ok v, ⟨s.idx + 1, Ev.read16Reg reg :: s.trace⟩)
  | .error e => (.error e, ⟨s.idx + 1, Ev.read16Reg reg :: s.trace⟩)

/-- VL6180X `write_byte` (hardware branch, lines 231-233). -/
def doWrite (o : VLOracle) (reg v : Nat) (s : BusState) :
    Except Nat Unit × BusState :=
  match o s.idx with
  | .ok _ => (.ok (), ⟨s.idx + 1, Ev.writeReg reg v :: s.trace⟩)
  | .error e => (.error e, ⟨s.idx + 1, Ev.writeReg reg v :: s.trace⟩)

/-- VL6180X `write_byte16` (hardware branch, lines 245-249). -/
def doWrite16 (o : VLOracle) (reg v : Nat) (s : BusState) :
    Except Nat Unit × BusState :=
  match o s.idx with
  | .ok _ => (.ok (), ⟨s.idx + 1, Ev.write16Reg reg v :: s.trace⟩)
  | .error e => (.error e, ⟨s.idx + 1, Ev.write16Reg reg v :: s.trace⟩)

/-- Issue a sequence of `write_byte` calls, stopping at the first
transport error (an uncaught exception aborts the straight-line block). -/
def writeSeq (o : VLOracle) : List (Nat × Nat) → BusState → Except Nat Unit × BusState
  | [], s => (.ok (), s)
  | (r, v) :: rest, s =>
    match doWrite o r v s with
    | (.ok _, s') => writeSeq o rest s'
    | (.error e, s') => (.error e, s')

/-- The ~30 vendor tuning registers written when the fresh-out-of-reset
register reads 1 (VL6180.py lines 48-77). -/
def tuningRegs : List (Nat × Nat) :=
  [(0x0207, 0x01), (0x0208, 0x01), (0x0096, 0x00), (0x0097, 0xFD),
   (0x00E3, 0x00), (0x00E4, 0x04), (0x00E5, 0x02), (0x00E6, 0x01),
   (0x00E7, 0x03), (0x00F5, 0x02), (0x00D9, 0x05), (0x00DB, 0xCE),
   (0x00DC, 0x03), (0x00DD, 0xF8), (0x009F, 0x00), (0x00A3, 0x3C),
   (0x00B7, 0x00), (0x00BB, 0x3C), (0x00B2, 0x09), (0x00CA, 0x09),
   (0x0198, 0x01), (0x01B0, 0x17), (0x01AD, 0x00), (0x00FF, 0x05),
   (0x0100, 0x05), (0x0199, 0x05), (0x01A6, 0x1B), (0x01AC, 0x3E),
   (0x01A7, 0x1F), (0x0030, 0x00)]

/-- The four public registers written unconditionally inside the retry
loop (VL6180.py lines 81-87). -/
def publicRegs : List (Nat × Nat) :=
  [(0x0011, 0x10), (0x010A, 0x30), (0x003F, 0x46), (0x0031, 0xFF)]

/-- A write after the retry loop: either `write_byte` or `write_byte16`. -/
inductive WOp
  | w8 (reg v : Nat)
  | w16 (reg v : Nat)
  deriving DecidableEq

/-- The event a post-loop write records in the trace. -/
def WOp.toEv : WOp → Ev
  | .w8 r v => Ev.writeReg r v
  | .w16 r v => Ev.write16Reg r v

/-- The twelve configuration writes issued after the retry loop
(VL6180.py lines 107-133), outside any try/except. -/
def postRegs : List WOp :=
  [.w8 0x0040 0x63, .w8 0x002E 0x01, .w8 0x001B 0x09, .w8 0x003E 0x31,
   .w8 0x0014 0x24, .w8 0x0016 0x00, .w8 0x001C 0x32, .w8 0x002D 0x11,
   .w16 0x0022 0x7B, .w16 0x0040 0x64, .w8 0x003F 0x20, .w8 0x0120 0x01]

/-- Issue a sequence of post-loop writes, stopping at the first transport
error (no surrounding try/except, so the error propagates). -/
def runWOps (o : VLOracle) : List WOp → BusState → Except Nat Unit × BusState
  | [], s => (.ok (), s)
  | .w8 r v :: rest, s =>
    match doWrite o r v s with
    | (.ok _, s') => runWOps o rest s'
    | (.error e, s') => (.error e, s')
  | .w16 r v :: rest, s =>
    match doWrite16 o r v s with
    | (.ok _, s') => runWOps o rest s'
    | (.error e, s') => (.error e, s')

/-- One attempt of the VL6180X initialization try-block (lines 47-91):
read the fresh-out-of-reset register `0x0016`; if it reads 1, write the
tuning registers; then write the four public registers. -/
def initAttempt (o : VLOracle) (s : BusState) : Except Nat Unit × BusState :=
  match doRead o 0x0016 s with
  | (.error e, s') => (.error e, s')
  | (.ok v, s') =>
    match (if v = 1 then writeSeq o tuningRegs s' else (.ok (), s')) with
    | (.error e, s₂) => (.error e, s₂)
    | (.ok _, s₂) => writeSeq o publicRegs s₂

/-- The `for attempt in range(3)` retry loop of VL6180X initialization
(lines 40-106), unrolled: 0.5 s sleep before retries, last failure
re-raised. -/
def initLoopHW (o : VLOracle) : Except Nat Unit × BusState :=
  match initAttempt o startState with
  | (.ok _, s) => (.ok (), s)
  | (.error _, s₁) =>
    match initAttempt o (sleepEv 500 s₁) with
    | (.ok _, s) => (.ok (), s)
    | (.error _, s₂) =>
      match initAttempt o (sleepEv 500 s₂) with
      | (.ok _, s) => (.ok (), s)
      | (.error e, s₃) => (.error e, s₃)

/-- VL6180X `__init__` (lines 20-135): in test mode it returns before any
register access (line 37); in hardware mode it runs the retry loop and
then the twelve post-loop configuration writes. -/
def vl6180Init (testMode : Bool) (o : VLOracle) : Except Nat Unit × BusState :=
  if testMode then (.ok (), startState)
  else
    match initLoopHW o with
    | (.error e, s) => (.error e, s)
    | (.ok _, s) => runWOps o postRegs s

/-- VL6180X `get_distance` (lines 137-157): in test mode a random value in
[10, 200]; in hardware mode write `0x01` to `SYSRANGE_START` (`0x0018`),
sleep 0.1 s, read `RESULT_RANGE_VAL` (`0x0062`), write `0x07` to
`SYSTEM_INTERRUPT_CLEAR` (`0x0015`), return the raw byte. -/
def getDistance (testMode : Bool) (r : ℚ) (o : VLOracle) :
    Except Nat ℚ × BusState :=
  if testMode then (.ok (uniform 10 200 r), startState)
  else
    match doWrite o 0x0018 0x01 startState with
    | (.error e, s) => (.error e, s)
    | (.ok _, s) =>
      match doRead o 0x0062 (sleepEv 100 s) with
      | (.error e, s') => (.error e, s')
      | (.ok v, s') =>
        match doWrite o 0x0015 0x07 s' with
        | (.error e, s₂) => (.error e, s₂)
        | (.ok _, s₂) => (.ok (v : ℚ), s₂)

/-- VL6180X `get_light` (lines 159-179): in test mode a random value in
[0.1, 10.0]; in hardware mode write `0x01` to `SYSALS_START` (`0x0038`),
sleep 0.5 s, read 16-bit `RESULT_ALS_VAL` (`0x0050`), clear the interrupt,
return `light * 0.32 * 100 / (32 * 100)`. -/
def getLight (testMode : Bool) (r : ℚ) (o : VLOracle) :
    Except Nat ℚ × BusState :=
  if testMode then (.ok (uniform (1/10) 10 r), startState)
  else
    match doWrite o 0x0038 0x01 startState with
    | (.error e, s) => (.error e, s)
    | (.ok _, s) =>
      match doRead16 o 0x0050 (sleepEv 500 s) with
      | (.error e, s') => (.error e, s')
      | (.ok v, s') =>
        match doWrite o 0x0015 0x07 s' with
        | (.error e, s₂) => (.error e, s₂)
        | (.ok _, s₂) => (.ok ((v : ℚ) * (32/100) * 100 / (32 * 100)), s₂)

/-- The fresh-out-of-reset read that starts every initialization attempt. -/
def isResetRead : Ev → Bool
  | .readReg 0x0016 => true
  | _ => false

/-- A sleep event (retries are preceded by one). -/
def isSleep : Ev → Bool
  | .sleepMs _ => true
  | _ => false

/-- The interrupt-clear write of `get_distance` / `get_light`. -/
def isClearWrite : Ev → Bool
  | .writeReg 0x0015 0x07 => true
  | _ => false

/-- The measurement-command write event of SHT31.py. -/
def measEv : Ev := Ev.writeBlock 0x2C [0x10]

/-- Concrete transport for the C4 witness: the measurement write fails on
attempts one and two (operation indices 0 and 1) and the third attempt
succeeds, the block read returning the sample at index 3. -/
def c4Oracle : SHTOracle := fun n =>
  if n = 0 then .error 1
  else if n = 1 then .error 2
  else if n = 3 then .ok [0x67, 0x89, 0xAB, 0x80, 0x12, 0xCD]
  else .ok []

/-- State after the first failed attempt of `c4Oracle`. -/
def c4s1 : BusState := ⟨1, [measEv]⟩

/-- State after the second failed attempt of `c4Oracle`. -/
def c4s2 : BusState := ⟨2, [measEv, Ev.sleepMs 200, measEv]⟩

/-- State after the successful third attempt of `c4Oracle`. -/
def c4s3 : BusState :=
  ⟨4, [Ev.readBlock 0x00 6, Ev.sleepMs 1000, measEv, Ev.sleepMs 200,
       measEv, Ev.sleepMs 200, measEv]⟩

/-- Concrete transport for the C5 witness: every operation fails, the
operation at index `n` failing with error `n + 1`. -/
def c5Oracle : SHTOracle := fun n => .error (n + 1)

/-- State after the first failed attempt of `c5Oracle`. -/
def c5s1 : BusState := ⟨1, [measEv]⟩

/-- State after the second failed attempt of `c5Oracle`. -/
def c5s2 : BusState := ⟨2, [measEv, Ev.sleepMs 200, measEv]⟩

/-- State after the third failed attempt of `c5Oracle`. -/
def c5s3 : BusState :=
  ⟨3, [measEv, Ev.sleepMs 200, measEv, Ev.sleepMs 200, measEv]⟩

/-- Transport for the follow-up call of the C5 witness: it answers at
once, the block read returning the sample at index 1. -/
def c5OkOracle : SHTOracle := fun n =>
  if n = 1 then .ok [0x67, 0x89, 0xAB, 0x80, 0x12, 0xCD] else .ok []

/-- State after the immediate success of `c5OkOracle`. -/
def c5t : BusState := ⟨2, [Ev.readBlock 0x00 6, Ev.sleepMs 500, measEv]⟩

/-- Concrete transport for the C3 counterexample: the fresh-out-of-reset
register reads 0 (operation index 0), the four public-register writes
succeed (indices 1-4), and the first post-loop configuration write
(`write_byte(0x0040, 0x63)`, index 5) fails with error 7. -/
def c3Oracle : VLOracle := fun n => if n = 5 then .error 7 else .ok 0

/-- Concrete transport for the C3 witness: every operation fails with
error 9, so all three initialization attempts fail. -/
def c3FailOracle : VLOracle := fun _ => .error 9

/-- Final state of `vl6180Init` on `c3FailOracle`: three reset-check
reads, the two retries each preceded by the 0.5 s sleep. -/
def c3FailState : BusState :=
  ⟨3, [Ev.readReg 0x0016, Ev.sleepMs 500, Ev.readReg 0x0016,
       Ev.sleepMs 500, Ev.readReg 0x0016]⟩

/-- Concrete transport for the C6 counterexample: every operation
succeeds and the 16-bit ALS read (index 1) returns raw value 3200. -/
def c6Oracle : VLOracle := fun n => if n = 1 then .ok 3200 else .ok 0

/-- Concrete transport for the C6 witness: the ALS read returns 100. -/
def c6WOracle : VLOracle := fun n => if n = 1 then .ok 100 else .ok 0

/-- Concrete transport for the C7 counterexample: the range-start write
succeeds and the range-result read (index 1) fails with error 3. -/
def c7Oracle : VLOracle := fun n => if n = 1 then .error 3 else .ok 0

/-- Concrete transport for the C7 witness: every operation succeeds and
the range-result read returns 77. -/
def c7OkOracle : VLOracle := fun n => if n = 1 then .ok 77 else .ok 0

/-- An inert SHT31 transport, used where a call never touches the bus. -/
def zeroSHT : SHTOracle := fun _ => .ok []

/-- An inert VL6180X transport, used where a call never touches the bus. -/
def zeroVL : VLOracle := fun _ => .ok 0

/-- Claim C1: for raw bytes `hi`, `lo` in `[0, 255]`, the temperature
decoded from data bytes 0 and 1 equals `-45 + 175 * (hi*256+lo) / 65535`;
it is monotonically increasing in the raw 16-bit value `hi*256+lo`; and
raw 0 decodes to `-45` while raw 65535 decodes to `130`. -/
theorem sht31_temperature_decode (hi lo hi' lo' a b c e a' b' c' e' : Nat)
    (hhi : hi ≤ 255) (hlo : lo ≤ 255)
    (hmono : hi * 256 + lo ≤ hi' * 256 + lo') :
    decodeTemperature [hi, lo, a, b, c, e] =
      -45 + 175 * ((hi : ℚ) * 256 + (lo : ℚ)) / 65535 ∧
    decodeTemperature [hi, lo, a, b, c, e] ≤
      decodeTemperature [hi', lo', a', b', c', e'] ∧
    decodeTemperature [0, 0, 0, 0, 0, 0] = -45 ∧
    decodeTemperature [255, 255, 0, 0, 0, 0] = 130 := by
  refine ⟨rfl, ?_, by norm_num [decodeTemperature], by norm_num [decodeTemperature]⟩
  have hc : ((hi : ℚ) * 256 + (lo : ℚ)) ≤ ((hi' : ℚ) * 256 + (lo' : ℚ)) := by
    exact_mod_cast hmono
  unfold decodeTemperature
  simp only [List.getD_cons_zero, List.getD_cons_succ]
  linarith

/-- Witness for C1 at `hi = 1, lo = 2` against `hi' = 2, lo' = 3`. -/
theorem sht31_temperature_decode_witness :
    decodeTemperature [1, 2, 3, 4, 5, 6] =
      -45 + 175 * ((1 : ℚ) * 256 + (2 : ℚ)) / 65535 ∧
    decodeTemperature [1, 2, 3, 4, 5, 6] ≤
      decodeTemperature [2, 3, 4, 5, 6, 7] ∧
    decodeTemperature [0, 0, 0, 0, 0, 0] = -45 ∧
    decodeTemperature [255, 255, 0, 0, 0, 0] = 130 :=
  sht31_temperature_decode 1 2 2 3 3 4 5 6 4 5 6 7
    (by norm_num) (by norm_num) (by norm_num)

/-- Claim C2: for raw bytes `hi`, `lo` in `[0, 255]`, the humidity decoded
from data bytes 3 and 4 equals `100 * (hi*256+lo) / 65535`; raw 0 decodes
to 0 and raw 65535 to 100; and two 6-byte samples that agree on bytes
0, 1, 3, 4 (the checksum bytes 2 and 5 free) decode to the same pair. -/
theorem sht31_humidity_decode (hi lo a b c e : Nat) (d d' : List Nat)
    (hhi : hi ≤ 255) (hlo : lo ≤ 255)
    (h0 : d.getD 0 0 = d'.getD 0 0) (h1 : d.getD 1 0 = d'.getD 1 0)
    (h3 : d.getD 3 0 = d'.getD 3 0) (h4 : d.getD 4 0 = d'.getD 4 0) :
    decodeHumidity [a, b, c, hi, lo, e] =
      100 * ((hi : ℚ) * 256 + (lo : ℚ)) / 65535 ∧
    decodeHumidity [0, 0, 0, 0, 0, 0] = 0 ∧
    decodeHumidity [0, 0, 0, 255, 255, 0] = 100 ∧
    (decodeTemperature d, decodeHumidity d) =
      (decodeTemperature d', decodeHumidity d') := by
  refine ⟨rfl, by norm_num [decodeHumidity], by norm_num [decodeHumidity], ?_⟩
  simp only [decodeTemperature, decodeHumidity, h0, h1, h3, h4]

/-- Witness for C2 at `hi = 1, lo = 2`, samples differing only in the
checksum bytes (indices 2 and 5). -/
theorem sht31_humidity_decode_witness :
    decodeHumidity [0, 0, 0, 1, 2, 0] =
      100 * ((1 : ℚ) * 256 + (2 : ℚ)) / 65535 ∧
    decodeHumidity [0, 0, 0, 0, 0, 0] = 0 ∧
    decodeHumidity [0, 0, 0, 255, 255, 0] = 100 ∧
    (decodeTemperature [1, 2, 3, 4, 5, 6], decodeHumidity [1, 2, 3, 4, 5, 6]) =
      (decodeTemperature [1, 2, 99, 4, 5, 88], decodeHumidity [1, 2, 99, 4, 5, 88]) :=
  sht31_humidity_decode 1 2 0 0 0 0 [1, 2, 3, 4, 5, 6] [1, 2, 99, 4, 5, 88]
    (by norm_num) (by norm_num) rfl rfl rfl rfl

/-- Claim C10: the two temperature/humidity driver variants apply
identical decode functions — on every raw sample the decode of
SHT31_modified.py equals the decode of SHT31.py, for both components. -/
theorem sht31_variants_same_decode (d : List Nat) :
    modDecodeTemperature d = decodeTemperature d ∧
    modDecodeHumidity d = decodeHumidity d :=
  ⟨rfl, rfl⟩

/-- A sleep adds no measurement-command write to the trace. -/
theorem countMeas_sleepEv (ms : Nat) (s : BusState) :
    countEv isMeasWrite (sleepEv ms s).trace = countEv isMeasWrite s.trace := by
  simp [countEv, sleepEv, isMeasWrite]

/-- Each attempt of the SHT31 retry loop issues exactly one
measurement-command write, whatever the transport answers. -/
theorem shtAttempt_measWrite_count (o : SHTOracle) (first : Bool) (s : BusState) :
    countEv isMeasWrite (shtAttempt o first s).2.trace =
      countEv isMeasWrite s.trace + 1 := by
  unfold shtAttempt shtWrite shtRead sleepEv
  cases h : o s.idx with
  | ok v =>
    cases h2 : o (s.idx + 1) <;> simp [h, h2, countEv, isMeasWrite]
  | error e => simp [h, countEv, isMeasWrite]

/-- Claim C4: if the transport fails on the first two attempts of
`get_temperature_humidity` and succeeds on the third with sample `d`, the
call returns the decoded pair of the successful attempt with no error,
having issued exactly three measurement commands (two retries). -/
theorem sht31_retry_then_success (o : SHTOracle) (e₁ e₂ : Nat) (d : List Nat)
    (s₁ s₂ s₃ : BusState)
    (h₁ : shtAttempt o true startState = (.error e₁, s₁))
    (h₂ : shtAttempt o false (sleepEv 200 s₁) = (.error e₂, s₂))
    (h₃ : shtAttempt o false (sleepEv 200 s₂) = (.ok d, s₃)) :
    getTemperatureHumidity false 0 0 o =
      (.ok (decodeTemperature d, decodeHumidity d), s₃) ∧
    countEv isMeasWrite s₃.trace = 3 := by
  have hs₁ : (shtAttempt o true startState).2 = s₁ := by rw [h₁]
  have hs₂ : (shtAttempt o false (sleepEv 200 s₁)).2 = s₂ := by rw [h₂]
  have hs₃ : (shtAttempt o false (sleepEv 200 s₂)).2 = s₃ := by rw [h₃]
  have c₁ := shtAttempt_measWrite_count o true startState
  have c₂ := shtAttempt_measWrite_count o false (sleepEv 200 s₁)
  have c₃ := shtAttempt_measWrite_count o false (sleepEv 200 s₂)
  rw [hs₁] at c₁
  rw [hs₂] at c₂
  rw [hs₃] at c₃
  rw [countMeas_sleepEv] at c₂ c₃
  have c0 : countEv isMeasWrite startState.trace = 0 := rfl
  constructor
  · simp [getTemperatureHumidity, shtMeasureHW, h₁, h₂, h₃]
  · omega

/-- Witness for C4 on the concrete transport `c4Oracle`. -/
theorem sht31_retry_then_success_witness :
    getTemperatureHumidity false 0 0 c4Oracle =
      (.ok (decodeTemperature [0x67, 0x89, 0xAB, 0x80, 0x12, 0xCD],
            decodeHumidity [0x67, 0x89, 0xAB, 0x80, 0x12, 0xCD]), c4s3) ∧
    countEv isMeasWrite c4s3.trace = 3 :=
  sht31_retry_then_success c4Oracle 1 2 [0x67, 0x89, 0xAB, 0x80, 0x12, 0xCD]
    c4s1 c4s2 c4s3 rfl rfl rfl

/-- Claim C5: if the transport fails on all three attempts, the call
raises the transport error of the final failure after exactly three
measurement commands; the failure is per-call only — a fresh call whose
transport then answers succeeds as usual. -/
theorem sht31_retry_exhaustion (o o' : SHTOracle) (e₁ e₂ e₃ : Nat)
    (d : List Nat) (s₁ s₂ s₃ t : BusState)
    (h₁ : shtAttempt o true startState = (.error e₁, s₁))
    (h₂ : shtAttempt o false (sleepEv 200 s₁) = (.error e₂, s₂))
    (h₃ : shtAttempt o false (sleepEv 200 s₂) = (.error e₃, s₃))
    (h₄ : shtAttempt o' true startState = (.ok d, t)) :
    getTemperatureHumidity false 0 0 o = (.error e₃, s₃) ∧
    countEv isMeasWrite s₃.trace = 3 ∧
    getTemperatureHumidity false 0 0 o' =
      (.ok (decodeTemperature d, decodeHumidity d), t) := by
  have hs₁ : (shtAttempt o true startState).2 = s₁ := by rw [h₁]
  have hs₂ : (shtAttempt o false (sleepEv 200 s₁)).2 = s₂ := by rw [h₂]
  have hs₃ : (shtAttempt o false (sleepEv 200 s₂)).2 = s₃ := by rw [h₃]
  have c₁ := shtAttempt_measWrite_count o true startState
  have c₂ := shtAttempt_measWrite_count o false (sleepEv 200 s₁)
  have c₃ := shtAttempt_measWrite_count o false (sleepEv 200 s₂)
  rw [hs₁] at c₁
  rw [hs₂] at c₂
  rw [hs₃] at c₃
  rw [countMeas_sleepEv] at c₂ c₃
  have c0 : countEv isMeasWrite startState.trace = 0 := rfl
  refine ⟨by simp [getTemperatureHumidity, shtMeasureHW, h₁, h₂, h₃], by omega,
    by simp [getTemperatureHumidity, shtMeasureHW, h₄]⟩

/-- Witness for C5 on the concrete transports `c5Oracle` / `c5OkOracle`. -/
theorem sht31_retry_exhaustion_witness :
    getTemperatureHumidity false 0 0 c5Oracle = (.error 3, c5s3) ∧
    countEv isMeasWrite c5s3.trace = 3 ∧
    getTemperatureHumidity false 0 0 c5OkOracle =
      (.ok (decodeTemperature [0x67, 0x89, 0xAB, 0x80, 0x12, 0xCD],
            decodeHumidity [0x67, 0x89, 0xAB, 0x80, 0x12, 0xCD]), c5t) :=
  sht31_retry_exhaustion c5Oracle c5OkOracle 1 2 3
    [0x67, 0x89, 0xAB, 0x80, 0x12, 0xCD] c5s1 c5s2 c5s3 c5t rfl rfl rfl rfl

/-- A sleep adds no fresh-out-of-reset read to the trace. -/
theorem countReset_sleepEv (ms : Nat) (s : BusState) :
    countEv isResetRead (sleepEv ms s).trace = countEv isResetRead s.trace := by
  simp [countEv, sleepEv, isResetRead]

/-- A straight-line `write_byte` sequence issues no fresh-out-of-reset
read. -/
theorem writeSeq_resetRead_count (o : VLOracle) (l : List (Nat × Nat))
    (s s' : BusState) (r : Except Nat Unit) (h : writeSeq o l s = (r, s')) :
    countEv isResetRead s'.trace = countEv isResetRead s.trace := by
  induction l generalizing s r s' with
  | nil =>
    unfold writeSeq at h
    cases h
    rfl
  | cons p rest ih =>
    obtain ⟨rg, v⟩ := p
    unfold writeSeq doWrite at h
    cases ho : o s.idx with
    | ok w =>
      simp only [ho] at h
      rw [ih _ _ _ h]
      simp [countEv, isResetRead]
    | error e =>
      simp only [ho] at h
      cases h
      simp [countEv, isResetRead]

/-- Every initialization attempt issues exactly one fresh-out-of-reset
read, whatever the transport answers. -/
theorem initAttempt_resetRead_count (o : VLOracle) (s s' : BusState)
    (r : Except Nat Unit) (h : initAttempt o s = (r, s')) :
    countEv isResetRead s'.trace = countEv isResetRead s.trace + 1 := by
  unfold initAttempt doRead at h
  have hbase : countEv isResetRead (Ev.readReg 0x0016 :: s.trace) =
      countEv isResetRead s.trace + 1 := by simp [countEv, isResetRead]
  cases ho : o s.idx with
  | error e =>
    simp only [ho] at h
    cases h
    exact hbase
  | ok v =>
    simp only [ho] at h
    by_cases hv : v = 1
    · rw [if_pos hv] at h
      rcases hw : writeSeq o tuningRegs
          ⟨s.idx + 1, Ev.readReg 0x0016 :: s.trace⟩ with ⟨rt, s₂⟩
      rw [hw] at h
      have h₂ := writeSeq_resetRead_count o tuningRegs _ _ _ hw
      cases rt with
      | error e =>
        cases h
        rw [h₂]
        exact hbase
      | ok u =>
        have h₃ := writeSeq_resetRead_count o publicRegs _ _ _ h
        rw [h₃, h₂]
        exact hbase
    · rw [if_neg hv] at h
      have h₃ := writeSeq_resetRead_count o publicRegs _ _ _ h
      rw [h₃]
      exact hbase

/-- The post-loop write sequence never retries: it issues no
fresh-out-of-reset read, no sleep, and at most one bus operation per
requested write. -/
theorem runWOps_no_retry (o : VLOracle) (l : List WOp) (s s' : BusState)
    (r : Except Nat Unit) (h : runWOps o l s = (r, s')) :
    countEv isResetRead s'.trace = countEv isResetRead s.trace ∧
    countEv isSleep s'.trace = countEv isSleep s.trace ∧
    s'.idx ≤ s.idx + l.length := by
  induction l generalizing s r s' with
  | nil =>
    unfold runWOps at h
    cases h
    exact ⟨rfl, rfl, by omega⟩
  | cons op rest ih =>
    cases op with
    | w8 rg v =>
      unfold runWOps doWrite at h
      cases ho : o s.idx with
      | ok w =>
        simp only [ho] at h
        obtain ⟨i₁, i₂, i₃⟩ := ih _ _ _ h
        refine ⟨?_, ?_, ?_⟩
        · rw [i₁]; simp [countEv, isResetRead]
        · rw [i₂]; simp [countEv, isSleep]
        · simp only [List.length_cons] at i₃ ⊢
          omega
      | error e =>
        simp only [ho] at h
        cases h
        refine ⟨by simp [countEv, isResetRead], by simp [countEv, isSleep], ?_⟩
        simp only [List.length_cons]
        omega
    | w16 rg v =>
      unfold runWOps doWrite16 at h
      cases ho : o s.idx with
      | ok w =>
        simp only [ho] at h
        obtain ⟨i₁, i₂, i₃⟩ := ih _ _ _ h
        refine ⟨?_, ?_, ?_⟩
        · rw [i₁]; simp [countEv, isResetRead]
        · rw [i₂]; simp [countEv, isSleep]
        · simp only [List.length_cons] at i₃ ⊢
          omega
      | error e =>
        simp only [ho] at h
        cases h
        refine ⟨by simp [countEv, isResetRead], by simp [countEv, isSleep], ?_⟩
        simp only [List.length_cons]
        omega

/-- When every post-loop write succeeds, the writes appear in the trace
in order, on top of the prior trace. -/
theorem runWOps_ok_trace (o : VLOracle) (l : List WOp) (s s' : BusState)
    (h : runWOps o l s = (.ok (), s')) :
    s'.trace = (l.map WOp.toEv).reverse ++ s.trace := by
  induction l generalizing s s' with
  | nil =>
    unfold runWOps at h
    cases h
    simp
  | cons op rest ih =>
    cases op with
    | w8 rg v =>
      unfold runWOps doWrite at h
      cases ho : o s.idx with
      | ok w =>
        simp only [ho] at h
        rw [ih _ _ h]
        simp [WOp.toEv]
      | error e =>
        simp only [ho] at h
        simp at h
    | w16 rg v =>
      unfold runWOps doWrite16 at h
      cases ho : o s.idx with
      | ok w =>
        simp only [ho] at h
        rw [ih _ _ h]
        simp [WOp.toEv]
      | error e =>
        simp only [ho] at h
        simp at h

/-- Claim C3 counterexample: on `c3Oracle` a register write of the
initialization sequence (the post-loop `write_byte(0x0040, 0x63)`) fails
with a transport error, yet the error propagates after a single attempt —
one reset-check read, no retry sleep — instead of the whole sequence being
retried up to 3 attempts. -/
theorem vl6180_init_no_retry_counterexample :
    (vl6180Init false c3Oracle).1 = .error 7 ∧
    countEv isResetRead (vl6180Init false c3Oracle).2.trace = 1 ∧
    countEv isSleep (vl6180Init false c3Oracle).2.trace = 0 :=
  ⟨rfl, rfl, rfl⟩

/-- Claim C3 (amended): a failure of the fresh-out-of-reset check or of a
register write inside the retried block is retried up to 3 attempts in
total, the last error propagating with three reset-check reads in the
trace; a failure of a post-loop configuration write propagates
immediately with no retry (no new attempt, no sleep, at most one bus
operation per remaining write); in either case construction fails, and
when construction succeeds all twelve post-loop writes were applied. -/
theorem vl6180_init_retry_amended (o : VLOracle) :
    (∀ e₁ e₂ e₃ t₁ t₂ t₃,
      initAttempt o startState = (.error e₁, t₁) →
      initAttempt o (sleepEv 500 t₁) = (.error e₂, t₂) →
      initAttempt o (sleepEv 500 t₂) = (.error e₃, t₃) →
      vl6180Init false o = (.error e₃, t₃) ∧
      countEv isResetRead t₃.trace = 3) ∧
    (∀ s₁ e s₂, initLoopHW o = (.ok (), s₁) →
      runWOps o postRegs s₁ = (.error e, s₂) →
      vl6180Init false o = (.error e, s₂) ∧
      countEv isResetRead s₂.trace = countEv isResetRead s₁.trace ∧
      countEv isSleep s₂.trace = countEv isSleep s₁.trace ∧
      s₂.idx ≤ s₁.idx + postRegs.length) ∧
    (∀ s, vl6180Init false o = (.ok (), s) →
      ∃ rest, s.trace = (postRegs.map WOp.toEv).reverse ++ rest) := by
  refine ⟨?_, ?_, ?_⟩
  · intro e₁ e₂ e₃ t₁ t₂ t₃ h₁ h₂ h₃
    have n₁ := initAttempt_resetRead_count o _ _ _ h₁
    have n₂ := initAttempt_resetRead_count o _ _ _ h₂
    have n₃ := initAttempt_resetRead_count o _ _ _ h₃
    rw [countReset_sleepEv] at n₂ n₃
    have n0 : countEv isResetRead startState.trace = 0 := rfl
    exact ⟨by simp [vl6180Init, initLoopHW, h₁, h₂, h₃], by omega⟩
  · intro s₁ e s₂ hL hW
    obtain ⟨i₁, i₂, i₃⟩ := runWOps_no_retry o postRegs _ _ _ hW
    exact ⟨by simp [vl6180Init, hL, hW], i₁, i₂, i₃⟩
  · intro s h
    rw [show vl6180Init false o =
        (match initLoopHW o with
         | (.error e, s) => (.error e, s)
         | (.ok _, s) => runWOps o postRegs s) from rfl] at h
    rcases hL : initLoopHW o with ⟨rL, s₁⟩
    rw [hL] at h
    cases rL with
    | error e => simp at h
    | ok u => exact ⟨s₁.trace, runWOps_ok_trace o postRegs _ _ h⟩

/-- Witness for the amended C3 on the all-failing transport
`c3FailOracle`: all three attempts fail, error 9 propagates after three
reset-check reads, and construction fails. -/
theorem vl6180_init_retry_amended_witness :
    vl6180Init false c3FailOracle = (.error 9, c3FailState) ∧
    countEv isResetRead c3FailState.trace = 3 :=
  (vl6180_init_retry_amended c3FailOracle).1 9 9 9
    ⟨1, [Ev.readReg 0x0016]⟩
    ⟨2, [Ev.readReg 0x0016, Ev.sleepMs 500, Ev.readReg 0x0016]⟩
    c3FailState rfl rfl rfl

/-- Claim C6 counterexample: on `c6Oracle` the hardware `get_light` reads
raw ALS value 3200 and returns 32 lux, not the claimed 1.0 lux — the
claim's own net multiplier 0.01 gives 3200 * 0.01 = 32. -/
theorem vl6180_get_light_3200_counterexample :
    (getLight false 0 c6Oracle).1 = .ok 32 ∧ (32 : ℚ) ≠ 1 := by
  constructor
  · have h : (getLight false 0 c6Oracle).1 =
        .ok (((3200 : Nat) : ℚ) * (32/100) * 100 / (32 * 100)) := rfl
    rw [h]
    norm_num
  · norm_num

/-- Claim C6 (amended): for every 16-bit raw ALS value the hardware
`get_light` returns `raw * 0.32 * 100 / (32*100)`, a net multiplier of
0.01 per count; the boundary consistent with the formula is raw = 100 →
1.0 lux, while raw = 3200 gives 32.0 lux. -/
theorem vl6180_get_light_scaling (o : VLOracle) (a raw b : Nat)
    (hraw : raw < 65536)
    (h₀ : o 0 = .ok a) (h₁ : o 1 = .ok raw) (h₂ : o 2 = .ok b) :
    (getLight false 0 o).1 = .ok ((raw : ℚ) * (32/100) * 100 / (32 * 100)) ∧
    (raw : ℚ) * (32/100) * 100 / (32 * 100) = (raw : ℚ) * (1/100) ∧
    (100 : ℚ) * (32/100) * 100 / (32 * 100) = 1 ∧
    (3200 : ℚ) * (32/100) * 100 / (32 * 100) = 32 := by
  refine ⟨?_, by ring, by norm_num, by norm_num⟩
  simp [getLight, doWrite, doRead16, sleepEv, startState, h₀, h₁, h₂]

/-- Witness for the amended C6 on `c6WOracle` (raw = 100). -/
theorem vl6180_get_light_scaling_witness :
    (getLight false 0 c6WOracle).1 =
      .ok (((100 : Nat) : ℚ) * (32/100) * 100 / (32 * 100)) ∧
    ((100 : Nat) : ℚ) * (32/100) * 100 / (32 * 100) =
      ((100 : Nat) : ℚ) * (1/100) ∧
    (100 : ℚ) * (32/100) * 100 / (32 * 100) = 1 ∧
    (3200 : ℚ) * (32/100) * 100 / (32 * 100) = 32 :=
  vl6180_get_light_scaling c6WOracle 0 100 0 (by norm_num) rfl rfl rfl

/-- Claim C7 counterexample: on `c7Oracle` the range-result read fails
with a transport error, the error propagates, and the interrupt-clear
write is never issued — it is not "always executed". -/
theorem vl6180_get_distance_clear_skipped :
    (getDistance false 0 c7Oracle).1 = .error 3 ∧
    countEv isClearWrite (getDistance false 0 c7Oracle).2.trace = 0 :=
  ⟨rfl, rfl⟩

/-- Claim C7 (amended): hardware `get_distance` performs exactly the
sequence: write 0x01 to the range-start register, sleep 0.1 s, read the
range result, and — whenever the preceding steps succeed — write 0x07 to
the interrupt-clear register, returning the raw value; a transport error
at any step propagates to the caller with no internal retry, skipping the
remaining steps (including the interrupt-clear write). -/
theorem vl6180_get_distance_sequence (o : VLOracle) (a v b e : Nat) :
    (o 0 = .ok a → o 1 = .ok v → o 2 = .ok b →
      getDistance false 0 o =
        (.ok (v : ℚ),
         ⟨3, [Ev.writeReg 0x0015 0x07, Ev.readReg 0x0062, Ev.sleepMs 100,
              Ev.writeReg 0x0018 0x01]⟩)) ∧
    (o 0 = .error e →
      getDistance false 0 o =
        (.error e, ⟨1, [Ev.writeReg 0x0018 0x01]⟩)) ∧
    (o 0 = .ok a → o 1 = .error e →
      getDistance false 0 o =
        (.error e,
         ⟨2, [Ev.readReg 0x0062, Ev.sleepMs 100, Ev.writeReg 0x0018 0x01]⟩)) ∧
    (o 0 = .ok a → o 1 = .ok v → o 2 = .error e →
      getDistance false 0 o =
        (.error e,
         ⟨3, [Ev.writeReg 0x0015 0x07, Ev.readReg 0x0062, Ev.sleepMs 100,
              Ev.writeReg 0x0018 0x01]⟩)) := by
  refine ⟨?_, ?_, ?_, ?_⟩
  · intro h₀ h₁ h₂
    simp [getDistance, doWrite, doRead, sleepEv, startState, h₀, h₁, h₂]
  · intro h₀
    simp [getDistance, doWrite, doRead, sleepEv, startState, h₀]
  · intro h₀ h₁
    simp [getDistance, doWrite, doRead, sleepEv, startState, h₀, h₁]
  · intro h₀ h₁ h₂
    simp [getDistance, doWrite, doRead, sleepEv, startState, h₀, h₁, h₂]

/-- Witness for the amended C7 on the all-succeeding transport
`c7OkOracle` (raw range value 77). -/
theorem vl6180_get_distance_sequence_witness :
    getDistance false 0 c7OkOracle =
      (.ok ((77 : Nat) : ℚ),
       ⟨3, [Ev.writeReg 0x0015 0x07, Ev.readReg 0x0062, Ev.sleepMs 100,
            Ev.writeReg 0x0018 0x01]⟩) :=
  (vl6180_get_distance_sequence c7OkOracle 0 77 0 0).1 rfl rfl rfl

/-- Claim C8: in simulated mode every temperature lies in [15, 35], every
humidity in [30, 80], every distance in [10, 200], and every light value
in [0.1, 10.0], for any `random.uniform` seeds in [0, 1]. -/
theorem simulated_mode_ranges (r₁ r₂ r₃ r₄ : ℚ) (o : SHTOracle) (o' : VLOracle)
    (hr₁ : 0 ≤ r₁) (hr₁' : r₁ ≤ 1) (hr₂ : 0 ≤ r₂) (hr₂' : r₂ ≤ 1)
    (hr₃ : 0 ≤ r₃) (hr₃' : r₃ ≤ 1) (hr₄ : 0 ≤ r₄) (hr₄' : r₄ ≤ 1) :
    (∃ t h s, getTemperatureHumidity true r₁ r₂ o = (.ok (t, h), s) ∧
      15 ≤ t ∧ t ≤ 35 ∧ 30 ≤ h ∧ h ≤ 80) ∧
    (∃ dv s, getDistance true r₃ o' = (.ok dv, s) ∧ 10 ≤ dv ∧ dv ≤ 200) ∧
    (∃ lv s, getLight true r₄ o' = (.ok lv, s) ∧ 1/10 ≤ lv ∧ lv ≤ 10) := by
  refine ⟨⟨20 + uniform (-5) 15 r₁, 50 + uniform (-20) 30 r₂, startState,
      rfl, ?_, ?_, ?_, ?_⟩,
    ⟨uniform 10 200 r₃, startState, rfl, ?_, ?_⟩,
    ⟨uniform (1/10) 10 r₄, startState, rfl, ?_, ?_⟩⟩
  all_goals unfold uniform
  all_goals nlinarith

/-- Witness for C8 with every seed at 1/2 on inert transports. -/
theorem simulated_mode_ranges_witness :
    (∃ t h s, getTemperatureHumidity true (1/2) (1/2) zeroSHT = (.ok (t, h), s) ∧
      15 ≤ t ∧ t ≤ 35 ∧ 30 ≤ h ∧ h ≤ 80) ∧
    (∃ dv s, getDistance true (1/2) zeroVL = (.ok dv, s) ∧ 10 ≤ dv ∧ dv ≤ 200) ∧
    (∃ lv s, getLight true (1/2) zeroVL = (.ok lv, s) ∧ 1/10 ≤ lv ∧ lv ≤ 10) :=
  simulated_mode_ranges (1/2) (1/2) (1/2) (1/2) zeroSHT zeroVL
    (by norm_num) (by norm_num) (by norm_num) (by norm_num)
    (by norm_num) (by norm_num) (by norm_num) (by norm_num)

/-- Claim C9: VL6180X construction in test mode performs zero transport
operations — the final trace is empty, in particular it holds no write —
and never errors. -/
theorem vl6180_test_mode_construction (o : VLOracle) :
    vl6180Init true o = (.ok (), startState) ∧ startState.trace = [] :=
  ⟨rfl, rfl⟩

end IotKit
